import Mathlib

/-!
Verification of the country/language lookup component (`LanguageMapSDK`
in `app.py`) against its natural-language specification.

The component is embedded shallowly:

* a reference-dataset entry (a `pycountry` country object) becomes
  `RefEntry`, with `Option` fields for the attributes the code probes
  with `hasattr`/`getattr`;
* the language-code resolution capability
  (`pycountry.languages.get(alpha_2=...)`, returning `None` for unknown
  codes) becomes an abstract parameter `resolve : String → Option String`;
* `_load_country_data` becomes `_load_country_data`, reproducing the
  per-entry `try/except: continue` control flow: an entry with no
  `languages` attribute takes the `"Unknown"` branch, while an entry whose
  first language code fails to resolve (or whose language list is empty)
  raises inside the `try` block and is skipped;
* `get_country_info` filters the directory with pandas
  `Series.str.contains(query, case=False)`.  With its default
  `regex=True`, that call compiles `query` as a regular expression with
  `re.IGNORECASE` and keeps the rows whose `name` contains a match
  (`re.search` semantics), raising `re.error` on a malformed pattern.
  This is modelled by a regex AST `Regex`, a total positional matcher
  `Regex.search`, and a pattern compiler `parseRegex` returning `Except`
  like `re.compile`;
* `create_country_map` becomes `create_country_map`, with `folium.Map`
  and `folium.Marker` reduced to the records `FoliumMap` and `MapMarker`
  holding exactly the data the code passes them.

The modelled pattern fragment follows CPython 3.11 `re` semantics for:
literal characters; escapes (`\d \D \w \W \s \S`, the anchors and
boundaries `\A \Z \b \B`, control escapes `\n \t \r \f \v \a`, hex and
unicode escapes `\xhh \uhhhh \Uhhhhhhhh`, octal escapes, escaped
punctuation; unknown letter escapes are "bad escape" errors and digit
escapes that are not octal are group-reference errors); the dot (which
does not match a newline without `DOTALL`); the anchors `^` and `$`
(`$` also matches before a final newline; no `MULTILINE`); word
boundaries; character sets `[...]` with negation, ranges, and escapes
(digit escapes are octal inside a set; `]` directly after `[` or `[^` is
a literal member; a set may not be empty; malformed ranges are "bad
character range" errors); the quantifiers `* + ?` and `{m,n}` in all
their brace forms, including lazy variants, with "nothing to repeat" on
unrepeatable atoms and "multiple repeat" on stacked quantifiers; empty
alternatives in `|`; groups `(...)` and `(?:...)`; comments `(?#...)`;
and lookahead `(?=...)`/`(?!...)`.

Outside the fragment — reported as compile errors by `parseRegex`
although CPython accepts them, so the theorems below simply do not cover
such queries: backreferences and other group references, possessive
quantifiers and atomic groups, lookbehind, named groups, inline flags
and the remaining `(?...)` extensions, `\N{...}` named escapes, and
non-ASCII pattern characters.  Character classification and case folding
are those of ASCII; CPython applies Unicode rules, so text outside
ASCII is classified differently (`é` is a word character for Python's
`\w`), which is why the lookup-characterisation theorem assumes ASCII
record names.

Numeric coordinates are represented as `Rat`: the code only copies them
from the dataset (no arithmetic), so exact rationals are faithful.
-/

set_option maxRecDepth 8000

/-- A row of the static reference dataset (one `pycountry` country
object).  `official_name`, `latitude`, `longitude` and `languages` are
optional because the source probes them with `hasattr`/`getattr`. -/
structure RefEntry where
  name : String
  official_name : Option String
  latitude : Option Rat
  longitude : Option Rat
  languages : Option (List String)
deriving DecidableEq

/-- One row of the `country_data` DataFrame built by
`_load_country_data` (the dict appended to `countries`). -/
structure CountryRecord where
  name : String
  official_name : String
  latitude : Rat
  longitude : Rat
  language : String
deriving DecidableEq

/-- The `folium.Marker` the code creates: position, `popup` text and icon
colour. -/
structure MapMarker where
  latitude : Rat
  longitude : Rat
  popup : String
  icon_color : String
deriving DecidableEq

/-- The `folium.Map` the code creates: centre `location`, `zoom_start`,
and the markers added to it. -/
structure FoliumMap where
  location : Rat × Rat
  zoom_start : Nat
  markers : List MapMarker
deriving DecidableEq

/-- The body of the per-entry loop of `_load_country_data`.  Mirrors

  try:
      lang = pycountry.languages.get(alpha_2=country.languages[0]).name
             if hasattr(country, 'languages') else "Unknown"
      countries.append({...})
  except:
      continue

`none` models the `except: continue` outcomes: `country.languages[0]`
raising `IndexError` on an empty list, or `.name` raising
`AttributeError` because `pycountry.languages.get` returned `None` for an
unresolvable code.  An entry with no `languages` attribute at all takes
the `else "Unknown"` branch and is appended. -/
def mkRecord (resolve : String → Option String) (e : RefEntry) : Option CountryRecord :=
  match e.languages with
  | none =>
      some ({ name := e.name,
              official_name := e.official_name.getD e.name,
              latitude := e.latitude.getD 0,
              longitude := e.longitude.getD 0,
              language := "Unknown" })
  | some [] => none
  | some (c :: _) =>
      match resolve c with
      | none => none
      | some lang =>
          some ({ name := e.name,
                  official_name := e.official_name.getD e.name,
                  latitude := e.latitude.getD 0,
                  longitude := e.longitude.getD 0,
                  language := lang })

/-- `LanguageMapSDK._load_country_data`: iterate the reference dataset in
order, appending the record built for each entry and skipping the entries
whose loop body raised. -/
def _load_country_data (resolve : String → Option String)
    (dataset : List RefEntry) : List CountryRecord :=
  dataset.filterMap (mkRecord resolve)

/-- Python `\w`, restricted to ASCII: letters, digits and underscore. -/
def isWordChar (c : Char) : Bool := c.isAlphanum || c = '_'

/-- Python `\s`, restricted to ASCII: space, tab, newline, carriage
return, vertical tab, form feed. -/
def isSpaceChar (c : Char) : Bool :=
  c = ' ' || c = '\t' || c = '\n' || c = '\r' || c = '\x0b' || c = '\x0c'

/-- Case-insensitive comparison of a pattern literal with an input
character (`re.IGNORECASE`, ASCII folding). -/
def charCI (a c : Char) : Bool := a.toLower = c.toLower

/-- Is `c` inside the closed code-point range `lo`-`hi`? -/
def inRange (lo hi c : Char) : Bool := decide (lo ≤ c) && decide (c ≤ hi)

/-- Member of a character set `[...]`: a literal, a range, or one of the
escape classes `\d \D \w \W \s \S`. -/
inductive ClsItem where
  | single : Char → ClsItem
  | range : Char → Char → ClsItem
  | digit : ClsItem
  | nondigit : ClsItem
  | word : ClsItem
  | nonword : ClsItem
  | space : ClsItem
  | nonspace : ClsItem
deriving DecidableEq

/-- Does a set member accept the character?  Under `re.IGNORECASE` a
range also accepts the character's case variants. -/
def ClsItem.hit : ClsItem → Char → Bool
  | .single a, c => charCI a c
  | .range lo hi, c => inRange lo hi c || inRange lo hi c.toLower || inRange lo hi c.toUpper
  | .digit, c => c.isDigit
  | .nondigit, c => !c.isDigit
  | .word, c => isWordChar c
  | .nonword, c => !(isWordChar c)
  | .space, c => isSpaceChar c
  | .nonspace, c => !(isSpaceChar c)

/-- Does the (possibly negated) character set accept the character? -/
def clsHit (neg : Bool) (items : List ClsItem) (c : Char) : Bool :=
  if neg then !(items.any (fun it => it.hit c)) else items.any (fun it => it.hit c)

/-- Abstract syntax of the regular-expression fragment modelled for
pandas `Series.str.contains` (which compiles its pattern with Python
`re`). -/
inductive Regex where
  | empty : Regex
  | eps : Regex
  | char : Char → Regex
  | dot : Regex
  | cls : Bool → List ClsItem → Regex
  | bos : Regex
  | dollar : Regex
  | eosZ : Regex
  | wordB : Regex
  | nonwordB : Regex
  | look : Bool → Regex → Regex
  | concat : Regex → Regex → Regex
  | alt : Regex → Regex → Regex
  | star : Regex → Regex
deriving DecidableEq

/-- Structural size of a regex, used only to budget matcher fuel. -/
def Regex.size : Regex → Nat
  | .look _ r => r.size + 1
  | .concat r1 r2 => r1.size + r2.size + 1
  | .alt r1 r2 => r1.size + r2.size + 1
  | .star r => r.size + 1
  | _ => 1

/-- Is position `i` of the input at a word boundary?  Exactly one of the
neighbouring characters (out-of-range counts as non-word) is a word
character. -/
def atWordBoundary (s : List Char) (n i : Nat) : Bool :=
  (decide (0 < i) && isWordChar (s.getD (i - 1) '\x00')) !=
    (decide (i < n) && isWordChar (s.getD i '\x00'))

/-- Positional matcher: does the regex match some span of `s` (length
`n`) starting at position `i`, where the continuation `k` accepts the
end position?  Assertions (`^ $ \A \Z \b \B`, lookahead) consult the
absolute position, as `re` does.  Alternation and repetition explore
every alternative, which for the boolean "is there a match" question
asked by `re.search` coincides with Python's backtracking semantics
(greedy, lazy and plain alternatives accept the same inputs).  `fuel`
bounds the call depth; each frame's fuel is one less than the frame that
syntactically created the call, so the depth consumed is the structural
depth of the regex plus one per star iteration, each of which must
consume input — at most `size * (n + 1)`, which the budget paid by
`Regex.search` always covers.  `\B` additionally requires a non-empty
input, as in CPython 3.11 (changed in 3.12). -/
def matchF (s : List Char) (n : Nat) : Nat → Regex → Nat → (Nat → Bool) → Bool
  | 0, _, _, _ => false
  | fuel + 1, r, i, k =>
      match r with
      | .empty => false
      | .eps => k i
      | .char a => decide (i < n) && charCI a (s.getD i '\x00') && k (i + 1)
      | .dot => decide (i < n) && decide (s.getD i '\x00' ≠ '\n') && k (i + 1)
      | .cls neg items => decide (i < n) && clsHit neg items (s.getD i '\x00') && k (i + 1)
      | .bos => decide (i = 0) && k i
      | .dollar =>
          (decide (i = n) || (decide (i + 1 = n) && decide (s.getD i '\x00' = '\n'))) && k i
      | .eosZ => decide (i = n) && k i
      | .wordB => atWordBoundary s n i && k i
      | .nonwordB => decide (n ≠ 0) && !(atWordBoundary s n i) && k i
      | .look neg r1 =>
          (if neg then !(matchF s n fuel r1 i (fun _ => true))
           else matchF s n fuel r1 i (fun _ => true)) && k i
      | .concat r1 r2 => matchF s n fuel r1 i (fun j => matchF s n fuel r2 j k)
      | .alt r1 r2 => matchF s n fuel r1 i k || matchF s n fuel r2 i k
      | .star r1 =>
          k i || matchF s n fuel r1 i (fun j => decide (i < j) && matchF s n fuel (.star r1) j k)

/-- `re.search(pattern, s, re.IGNORECASE) is not None`, for a compiled
pattern: try every start position. -/
def Regex.search (r : Regex) (str : String) : Bool :=
  (List.range (str.toList.length + 1)).any (fun i =>
    matchF str.toList str.toList.length
      ((str.toList.length + 2) * (r.size + 2)) r i (fun _ => true))

/-- Is the character an octal digit? -/
def octDigit (c : Char) : Bool := decide ('0' ≤ c) && decide (c ≤ '7')

/-- Value of a hexadecimal digit, if it is one. -/
def hexDigitVal (c : Char) : Option Nat :=
  if c.isDigit then some (c.toNat - 48)
  else if decide ('a' ≤ c) && decide (c ≤ 'f') then some (c.toNat - 87)
  else if decide ('A' ≤ c) && decide (c ≤ 'F') then some (c.toNat - 55)
  else none

/-- Read exactly `k` hexadecimal digits, accumulating their value. -/
def hexNum : Nat → List Char → Nat → Option (Nat × List Char)
  | 0, rest, acc => some (acc, rest)
  | _ + 1, [], _ => none
  | k + 1, c :: rest, acc =>
      match hexDigitVal c with
      | some v => hexNum k rest (acc * 16 + v)
      | none => none

/-- A `\x`, `\u` or `\U` escape of `k` hex digits, as in `re`:
a code-point literal, "incomplete escape" when the digits are missing,
"bad character escape" for an invalid code point. -/
def escChar (k : Nat) (l : List Char) : Except String (Char × List Char) :=
  match hexNum k l 0 with
  | some (v, rest) =>
      if v.isValidChar then .ok (Char.ofNat v, rest) else .error ("bad character escape")
  | none => .error ("incomplete escape")

/-- Consume up to `lim` further octal digits of an octal escape. -/
def octTail : Nat → List Char → Nat → Nat × List Char
  | 0, l, acc => (acc, l)
  | _ + 1, [], acc => (acc, [])
  | lim + 1, c :: rest, acc =>
      if octDigit c then octTail lim rest (acc * 8 + (c.toNat - 48)) else (acc, c :: rest)

/-- An escape inside a character set, following `re`: the class escapes,
control escapes, `\b` as backspace, hex escapes, octal escapes (digits
are octal inside a set, never group references), literal punctuation;
unknown letter or digit escapes are "bad escape" errors. -/
def clsEscape : List Char → Except String (ClsItem × List Char)
  | [] => .error ("bad escape (end of pattern)")
  | c :: rest =>
      if c = 'd' then .ok (.digit, rest)
      else if c = 'D' then .ok (.nondigit, rest)
      else if c = 'w' then .ok (.word, rest)
      else if c = 'W' then .ok (.nonword, rest)
      else if c = 's' then .ok (.space, rest)
      else if c = 'S' then .ok (.nonspace, rest)
      else if c = 'n' then .ok (.single '\n', rest)
      else if c = 't' then .ok (.single '\t', rest)
      else if c = 'r' then .ok (.single '\r', rest)
      else if c = 'f' then .ok (.single '\x0c', rest)
      else if c = 'v' then .ok (.single '\x0b', rest)
      else if c = 'a' then .ok (.single '\x07', rest)
      else if c = 'b' then .ok (.single '\x08', rest)
      else if c = 'x' then
        match escChar 2 rest with
        | .ok (ch, rest2) => .ok (.single ch, rest2)
        | .error e => .error e
      else if c = 'u' then
        match escChar 4 rest with
        | .ok (ch, rest2) => .ok (.single ch, rest2)
        | .error e => .error e
      else if c = 'U' then
        match escChar 8 rest with
        | .ok (ch, rest2) => .ok (.single ch, rest2)
        | .error e => .error e
      else if octDigit c then
        match octTail 2 rest (c.toNat - 48) with
        | (v, rest2) =>
            if v ≤ 255 then .ok (.single (Char.ofNat v), rest2)
            else .error ("octal escape value outside of range")
      else if c.isAlpha || c.isDigit || decide (128 ≤ c.toNat) then .error ("bad escape")
      else .ok (.single c, rest)

/-- One primitive member of a character set: an escape or a literal
(ASCII-only in this model). -/
def clsAtom : List Char → Except String (ClsItem × List Char)
  | [] => .error ("unterminated character set")
  | '\\' :: rest => clsEscape rest
  | c :: rest =>
      if decide (128 ≤ c.toNat) then
        .error ("non-ASCII literal: outside modelled fragment")
      else .ok (.single c, rest)

/-- Body of a character set after `[` (and after `^`), following `re`:
`]` as the very first member is a literal, `x-y` between two literal
members is a range (ordered, else "bad character range"; a range bound
may not be a class escape), a trailing `-` is a literal, and a missing
`]` is "unterminated character set". -/
def parseCls : Nat → Bool → List Char → List ClsItem → Except String (List ClsItem × List Char)
  | 0, _, _, _ => .error ("internal: out of fuel")
  | _ + 1, _, [], _ => .error ("unterminated character set")
  | _ + 1, false, ']' :: rest, acc => .ok (acc.reverse, rest)
  | f + 1, first, l, acc =>
      match (match first, l with
             | true, ']' :: rest => Except.ok (ClsItem.single ']', rest)
             | _, _ => clsAtom l) with
      | .error e => .error e
      | .ok (it, rest) =>
          match rest with
          | '-' :: ']' :: rest2 => .ok ((ClsItem.single '-' :: it :: acc).reverse, rest2)
          | '-' :: rest1 =>
              match clsAtom rest1 with
              | .error e => .error e
              | .ok (it2, rest2) =>
                  match it, it2 with
                  | .single lo, .single hi =>
                      if decide (lo ≤ hi) then parseCls f false rest2 (ClsItem.range lo hi :: acc)
                      else .error ("bad character range")
                  | _, _ => .error ("bad character range")
          | _ => parseCls f false rest (it :: acc)

/-- A top-level escape, following `re`: class escapes become one-member
sets, `\A \Z \b \B` are assertions, control/hex/unicode escapes and
escaped punctuation are literals, `\ddd` with three octal digits is an
octal literal, other digit escapes are group references (outside the
modelled fragment — with no prior group CPython also rejects them), and
unknown letter escapes are "bad escape" errors. -/
def topEscape : List Char → Except String (Regex × List Char)
  | [] => .error ("bad escape (end of pattern)")
  | c :: rest =>
      if c = 'd' then .ok (.cls false [.digit], rest)
      else if c = 'D' then .ok (.cls false [.nondigit], rest)
      else if c = 'w' then .ok (.cls false [.word], rest)
      else if c = 'W' then .ok (.cls false [.nonword], rest)
      else if c = 's' then .ok (.cls false [.space], rest)
      else if c = 'S' then .ok (.cls false [.nonspace], rest)
      else if c = 'A' then .ok (.bos, rest)
      else if c = 'Z' then .ok (.eosZ, rest)
      else if c = 'b' then .ok (.wordB, rest)
      else if c = 'B' then .ok (.nonwordB, rest)
      else if c = 'n' then .ok (.char '\n', rest)
      else if c = 't' then .ok (.char '\t', rest)
      else if c = 'r' then .ok (.char '\r', rest)
      else if c = 'f' then .ok (.char '\x0c', rest)
      else if c = 'v' then .ok (.char '\x0b', rest)
      else if c = 'a' then .ok (.char '\x07', rest)
      else if c = 'x' then
        match escChar 2 rest with
        | .ok (ch, rest2) => .ok (.char ch, rest2)
        | .error e => .error e
      else if c = 'u' then
        match escChar 4 rest with
        | .ok (ch, rest2) => .ok (.char ch, rest2)
        | .error e => .error e
      else if c = 'U' then
        match escChar 8 rest with
        | .ok (ch, rest2) => .ok (.char ch, rest2)
        | .error e => .error e
      else if c = '0' then
        match octTail 2 rest 0 with
        | (v, rest2) => .ok (.char (Char.ofNat v), rest2)
      else if c.isDigit then
        match rest with
        | c2 :: c3 :: rest2 =>
            if octDigit c && octDigit c2 && octDigit c3 then
              if (c.toNat - 48) * 64 + (c2.toNat - 48) * 8 + (c3.toNat - 48) ≤ 255 then
                .ok (.char (Char.ofNat ((c.toNat - 48) * 64 + (c2.toNat - 48) * 8 + (c3.toNat - 48))), rest2)
              else .error ("octal escape value outside of range")
            else .error ("group references are outside the modelled fragment")
        | _ => .error ("group references are outside the modelled fragment")
      else if c.isAlpha then .error ("bad escape")
      else if decide (128 ≤ c.toNat) then .error ("bad escape")
      else .ok (.char c, rest)

/-- Value of a string of decimal digits. -/
def digitsToNat (ds : List Char) : Nat :=
  ds.foldl (fun a c => a * 10 + (c.toNat - 48)) 0

/-- Try to read a brace quantifier body after `{`: the forms `m}`,
`m,}`, `,n}`, `m,n}` and `,}` (empty bounds default to 0 and unbounded).
`none` means the brace is not a quantifier and stays a literal, exactly
as `re` treats it. -/
def quantSpec (l : List Char) : Option ((Nat × Option Nat) × List Char) :=
  match l.span Char.isDigit with
  | (ds1, rest1) =>
      match rest1 with
      | '}' :: rest =>
          if ds1.isEmpty then none
          else some ((digitsToNat ds1, some (digitsToNat ds1)), rest)
      | ',' :: rest1b =>
          match rest1b.span Char.isDigit with
          | (ds2, rest2) =>
              match rest2 with
              | '}' :: rest =>
                  some ((digitsToNat ds1,
                         if ds2.isEmpty then none else some (digitsToNat ds2)), rest)
              | _ => none
      | _ => none

/-- Does the input begin with a quantifier (`*`, `+`, `?`, or a brace
that reads as a quantifier)? -/
def quantStart : List Char → Bool
  | '*' :: _ => true
  | '+' :: _ => true
  | '?' :: _ => true
  | '{' :: rest => (quantSpec rest).isSome
  | _ => false

/-- `k` concatenated copies of a regex. -/
def repeatN (r : Regex) : Nat → Regex
  | 0 => .eps
  | k + 1 => .concat r (repeatN r k)

/-- After a lazy marker, any further quantifier is "multiple repeat". -/
def quantTail2 : Regex → List Char → Except String (Regex × List Char)
  | _, '?' :: _ => .error ("multiple repeat")
  | _, '*' :: _ => .error ("multiple repeat")
  | _, '+' :: _ => .error ("multiple repeat")
  | r, '{' :: rest =>
      match quantSpec rest with
      | some _ => .error ("multiple repeat")
      | none => .ok (r, '{' :: rest)
  | r, l => .ok (r, l)

/-- After a quantifier: an optional lazy `?` (same accepted inputs, so
the same regex), then no further quantifier.  A `+` here is a possessive
quantifier (CPython ≥ 3.11), which can reject inputs the plain
quantifier accepts and is outside the modelled fragment. -/
def quantTail : Regex → List Char → Except String (Regex × List Char)
  | r, '?' :: rest => quantTail2 r rest
  | _, '*' :: _ => .error ("multiple repeat")
  | _, '+' :: _ => .error ("possessive quantifier: outside modelled fragment")
  | r, '{' :: rest =>
      match quantSpec rest with
      | some _ => .error ("multiple repeat")
      | none => .ok (r, '{' :: rest)
  | r, l => .ok (r, l)

/-- Apply the quantifier following an atom, if any: `*`, `+`, `?` or a
brace quantifier (expanded to concatenations of the atom and of
`atom|ε`), rejecting `{m,n}` with `m > n` as `re` does. -/
def parseReps (r : Regex) : List Char → Except String (Regex × List Char)
  | '*' :: rest => quantTail (.star r) rest
  | '+' :: rest => quantTail (.concat r (.star r)) rest
  | '?' :: rest => quantTail (.alt r .eps) rest
  | '{' :: rest =>
      match quantSpec rest with
      | none => .ok (r, '{' :: rest)
      | some ((m, mx), rest2) =>
          match mx with
          | some hi =>
              if hi < m then .error ("min repeat greater than max repeat")
              else quantTail (.concat (repeatN r m) (repeatN (.alt r .eps) (hi - m))) rest2
          | none => quantTail (.concat (repeatN r m) (.star r)) rest2
  | l => .ok (r, l)

/-- Skip a `(?#...)` comment, up to the closing parenthesis. -/
def skipComment : List Char → Except String (List Char)
  | [] => .error ("missing ), unterminated comment")
  | ')' :: rest => .ok rest
  | _ :: rest => skipComment rest

/-- Does the input begin with an assertion (`^`, `$`, `\A`, `\Z`, `\b`,
`\B`)?  `re` refuses to quantify these ("nothing to repeat"). -/
def anchorStart : List Char → Bool
  | '^' :: _ => true
  | '$' :: _ => true
  | '\\' :: 'A' :: _ => true
  | '\\' :: 'Z' :: _ => true
  | '\\' :: 'b' :: _ => true
  | '\\' :: 'B' :: _ => true
  | _ => false

/-- Grammar level currently being parsed. -/
inductive PMode where
  | palt : PMode
  | pseq : PMode
  | patom : PMode
deriving DecidableEq

/-- Fuelled recursive-descent pattern compiler for the modelled fragment
of `re` syntax: an alternation of (possibly empty) sequences of
quantified atoms, where an atom is a literal, an escape, the dot, an
anchor, a character set, a group `(...)` or `(?:...)`, a comment
`(?#...)`, or a lookahead `(?=...)`/`(?!...)`.  Error strings mirror the
`re.error` messages CPython raises at the same inputs; constructs
outside the modelled fragment are reported as errors naming the
fragment. -/
def parseM : Nat → PMode → List Char → Except String (Regex × List Char)
  | 0, _, _ => .error ("internal: out of fuel")
  | f + 1, PMode.palt, l =>
      match parseM f PMode.pseq l with
      | .error e => .error e
      | .ok (r, rest) =>
          match rest with
          | '|' :: rest2 =>
              match parseM f PMode.palt rest2 with
              | .error e => .error e
              | .ok (r2, rest3) => .ok (.alt r r2, rest3)
          | _ => .ok (r, rest)
  | f + 1, PMode.pseq, l =>
      match l with
      | [] => .ok (.eps, [])
      | ')' :: _ => .ok (.eps, l)
      | '|' :: _ => .ok (.eps, l)
      | _ =>
          match parseM f PMode.patom l with
          | .error e => .error e
          | .ok (r, rest) =>
              match (if anchorStart l then
                       (if quantStart rest then Except.error ("nothing to repeat")
                        else Except.ok (r, rest))
                     else parseReps r rest) with
              | .error e => .error e
              | .ok (r1, rest1) =>
                  match parseM f PMode.pseq rest1 with
                  | .error e => .error e
                  | .ok (r2, rest2) => .ok (.concat r1 r2, rest2)
  | f + 1, PMode.patom, l =>
      match l with
      | [] => .error ("unexpected end of pattern")
      | '(' :: '?' :: ':' :: rest =>
          match parseM f PMode.palt rest with
          | .error e => .error e
          | .ok (r, rest2) =>
              match rest2 with
              | ')' :: rest3 => .ok (r, rest3)
              | _ => .error ("missing ), unterminated subpattern")
      | '(' :: '?' :: '=' :: rest =>
          match parseM f PMode.palt rest with
          | .error e => .error e
          | .ok (r, rest2) =>
              match rest2 with
              | ')' :: rest3 => .ok (.look false r, rest3)
              | _ => .error ("missing ), unterminated subpattern")
      | '(' :: '?' :: '!' :: rest =>
          match parseM f PMode.palt rest with
          | .error e => .error e
          | .ok (r, rest2) =>
              match rest2 with
              | ')' :: rest3 => .ok (.look true r, rest3)
              | _ => .error ("missing ), unterminated subpattern")
      | '(' :: '?' :: '#' :: rest =>
          match skipComment rest with
          | .error e => .error e
          | .ok rest2 => .ok (.eps, rest2)
      | '(' :: '?' :: [] => .error ("unexpected end of pattern")
      | '(' :: '?' :: _ :: _ => .error ("extended group syntax: outside modelled fragment")
      | '(' :: rest =>
          match parseM f PMode.palt rest with
          | .error e => .error e
          | .ok (r, rest2) =>
              match rest2 with
              | ')' :: rest3 => .ok (r, rest3)
              | _ => .error ("missing ), unterminated subpattern")
      | '.' :: rest => .ok (.dot, rest)
      | '^' :: rest => .ok (.bos, rest)
      | '$' :: rest => .ok (.dollar, rest)
      | '\\' :: rest => topEscape rest
      | '*' :: _ => .error ("nothing to repeat")
      | '+' :: _ => .error ("nothing to repeat")
      | '?' :: _ => .error ("nothing to repeat")
      | '[' :: '^' :: rest =>
          match parseCls (rest.length + 2) true rest [] with
          | .error e => .error e
          | .ok (items, rest2) => .ok (.cls true items, rest2)
      | '[' :: rest =>
          match parseCls (rest.length + 2) true rest [] with
          | .error e => .error e
          | .ok (items, rest2) => .ok (.cls false items, rest2)
      | '{' :: rest =>
          match quantSpec rest with
          | some _ => .error ("nothing to repeat")
          | none => .ok (.char '{', rest)
      | c :: rest =>
          if decide (128 ≤ c.toNat) then
            .error ("non-ASCII literal: outside modelled fragment")
          else .ok (.char c, rest)

/-- Pattern compilation, `re.compile(pattern, re.IGNORECASE)`: parse the
whole pattern or report a compile error, as pandas `str.contains` does
before any row is examined. -/
def parseRegex (pat : String) : Except String Regex :=
  match parseM (4 * pat.length + 8) PMode.palt pat.toList with
  | .error e => .error e
  | .ok (r, []) => .ok r
  | .ok (_, _ :: _) => .error ("unbalanced parenthesis")

/-- `LanguageMapSDK.get_country_info`: mirror of

  country = self.country_data[self.country_data['name'].str.contains(country_name, case=False)]
  if not country.empty: return country.iloc[0].to_dict()
  return None

The pattern is compiled once (propagating a compile error), the rows are
filtered in order by a case-insensitive regex search over `name`, and the
first surviving row — if any — is returned. -/
def get_country_info (self : List CountryRecord) (country_name : String) :
    Except String (Option CountryRecord) :=
  match parseRegex country_name with
  | .error e => .error e
  | .ok r => .ok ((self.filter (fun cr => r.search cr.name)).head?)

/-- The marker `create_country_map` builds for a matched record:

  folium.Marker([lat, lon], popup=f"{name} - Language: {language}", icon=folium.Icon(color='red'))
-/
def markerFor (cr : CountryRecord) : MapMarker :=
  { latitude := cr.latitude,
    longitude := cr.longitude,
    popup := cr.name ++ " - Language: " ++ cr.language,
    icon_color := "red" }

/-- `LanguageMapSDK.create_country_map`: look the query up, and on a
match build a map centred on the record's coordinates with zoom 6
carrying the single marker; on no match return `None`.  The Python
`if country_info:` test is dict truthiness, and the five-key row dict is
never empty, so it is exactly the `None` test. -/
def create_country_map (self : List CountryRecord) (country_name : String) :
    Except String (Option FoliumMap) :=
  match get_country_info self country_name with
  | .error e => .error e
  | .ok none => .ok none
  | .ok (some info) =>
      .ok (some ({ location := (info.latitude, info.longitude),
                   zoom_start := 6,
                   markers := [markerFor info] }))

/-- The state of a `LanguageMapSDK` instance: the one attribute
`self.country_data` assigned in `__init__`. -/
structure LanguageMapSDK where
  country_data : List CountryRecord
deriving DecidableEq

/-- `LanguageMapSDK.__init__`: build the directory once from the
reference dataset. -/
def LanguageMapSDK.init (resolve : String → Option String)
    (dataset : List RefEntry) : LanguageMapSDK :=
  { country_data := _load_country_data resolve dataset }

/-- `get_country_info` as a state-passing method: the Python method body
contains no assignment to `self`, so the post-state is the pre-state. -/
def LanguageMapSDK.get_country_info_m (sdk : LanguageMapSDK) (q : String) :
    Except String (Option CountryRecord) × LanguageMapSDK :=
  (get_country_info sdk.country_data q, sdk)

/-- `create_country_map` as a state-passing method: the Python method
body contains no assignment to `self`, so the post-state is the
pre-state. -/
def LanguageMapSDK.create_country_map_m (sdk : LanguageMapSDK) (q : String) :
    Except String (Option FoliumMap) × LanguageMapSDK :=
  (create_country_map sdk.country_data q, sdk)

/-- Two successive builds over the same reference dataset (the spec's
idempotence scenario). -/
def build_twice (resolve : String → Option String) (dataset : List RefEntry) :
    List CountryRecord × List CountryRecord :=
  ((LanguageMapSDK.init resolve dataset).country_data,
   (LanguageMapSDK.init resolve dataset).country_data)

/-- Concrete directory row used to exercise the query functions. -/
def chadRecord : CountryRecord :=
  { name := "Chad", official_name := "Republic of Chad",
    latitude := 15, longitude := 19, language := "French" }

/-- A one-record directory. -/
def demoDirectory : List CountryRecord := [chadRecord]

/-- A resolution capability that knows no language codes. -/
def noResolve : String → Option String := fun _ => none

/-- A reference entry whose language list is present but whose first
code is unresolvable. -/
def atlantisEntry : RefEntry :=
  { name := "Atlantis", official_name := none, latitude := none,
    longitude := none, languages := some ["xx"] }

/-- A reference entry with no languages attribute at all. -/
def franceEntry : RefEntry :=
  { name := "France", official_name := none, latitude := none,
    longitude := none, languages := none }

/-- A resolution capability that resolves exactly the code of
`pakistanEntry` (the spec's end-to-end scenario). -/
def urResolve : String → Option String :=
  fun c => if c = "ur" then some ("Urdu") else none

/-- The spec's end-to-end scenario entry. -/
def pakistanEntry : RefEntry :=
  { name := "Pakistan", official_name := some ("Islamic Republic of Pakistan"),
    latitude := some 30, longitude := some 69, languages := some ["ur"] }

/-- The record `_load_country_data` builds from `pakistanEntry`. -/
def pakistanRecord : CountryRecord :=
  { name := "Pakistan", official_name := "Islamic Republic of Pakistan",
    latitude := 30, longitude := 69, language := "Urdu" }

/-! ### Helper lemmas -/

theorem matchF_eps (s : List Char) (n fuel : Nat) (h : 0 < fuel) (i : Nat) (k : Nat → Bool) :
    matchF s n fuel Regex.eps i k = k i := by
  cases fuel with
  | zero => exact absurd h (by simp)
  | succ m => rfl

theorem Regex.search_eps (s : String) : Regex.search Regex.eps s = true := by
  unfold Regex.search
  apply List.any_eq_true.mpr
  refine ⟨0, List.mem_range.mpr (Nat.succ_pos _), ?_⟩
  rw [matchF_eps _ _ _ (Nat.mul_pos (Nat.succ_pos _) (Nat.succ_pos _))]

theorem mkRecord_fields (resolve : String → Option String) (e : RefEntry)
    (cr : CountryRecord) (h : mkRecord resolve e = some cr) :
    cr.name = e.name ∧ cr.official_name = e.official_name.getD e.name ∧
      cr.latitude = e.latitude.getD 0 ∧ cr.longitude = e.longitude.getD 0 := by
  rcases e with ⟨n, onm, la, lo, ls⟩
  cases ls with
  | none =>
      simp only [mkRecord, Option.some.injEq] at h
      subst h
      exact ⟨rfl, rfl, rfl, rfl⟩
  | some lcodes =>
      cases lcodes with
      | nil => simp [mkRecord] at h
      | cons c cs =>
          cases hr : resolve c with
          | none => simp [mkRecord, hr] at h
          | some lang =>
              simp only [mkRecord, hr, Option.some.injEq] at h
              subst h
              exact ⟨rfl, rfl, rfl, rfl⟩

/-! ### Claim theorems -/

/-- Claim C2 counterexample: the entry "Atlantis" declares the language
list ["xx"] and the code "xx" does not resolve, yet the built directory
is empty — the entry was dropped by `except: continue`, and no record
with language "Unknown" exists for it. -/
theorem load_drops_unresolvable_entry :
    _load_country_data noResolve [atlantisEntry] = [] ∧
      atlantisEntry.languages = some ["xx"] ∧ noResolve ("xx") = none :=
  ⟨rfl, rfl, rfl⟩

/-- Claim C2 (corrected): an entry with no language list at all is kept
with language "Unknown" (and the load never aborts — it is a total
function of the dataset), but an entry whose language list is empty, or
whose declared first code fails to resolve, is dropped from the
directory rather than recorded with "Unknown". -/
theorem load_language_default_or_skip (resolve : String → Option String) (e : RefEntry) :
    (e.languages = none → mkRecord resolve e =
        some ({ name := e.name, official_name := e.official_name.getD e.name,
                latitude := e.latitude.getD 0, longitude := e.longitude.getD 0,
                language := "Unknown" })) ∧
    (e.languages = some [] → mkRecord resolve e = none) ∧
    (∀ c cs, e.languages = some (c :: cs) → resolve c = none →
        mkRecord resolve e = none) ∧
    (∀ ds : List RefEntry, e ∈ ds → e.languages = none →
        ({ name := e.name, official_name := e.official_name.getD e.name,
           latitude := e.latitude.getD 0, longitude := e.longitude.getD 0,
           language := "Unknown" } : CountryRecord) ∈ _load_country_data resolve ds) := by
  refine ⟨?_, ?_, ?_, ?_⟩
  · intro hl
    simp [mkRecord, hl]
  · intro hl
    simp [mkRecord, hl]
  · intro c cs hl hr
    simp [mkRecord, hl, hr]
  · intro ds he hl
    unfold _load_country_data
    exact List.mem_filterMap.mpr ⟨e, he, by simp [mkRecord, hl]⟩

/-- Witness for the corrected C2 theorem: the entry "France" carries no
language list and is kept with language "Unknown". -/
theorem load_language_default_or_skip_witness :
    mkRecord noResolve franceEntry =
      some ({ name := "France", official_name := "France", latitude := 0,
              longitude := 0, language := "Unknown" }) :=
  (load_language_default_or_skip noResolve franceEntry).1 rfl

/-- Claim C4 (confirmed): the marker construction is a total function of
the record, placing the marker at the record's coordinates with the
popup label "name - Language: language". -/
theorem markerFor_fields (cr : CountryRecord) :
    (markerFor cr).latitude = cr.latitude ∧
    (markerFor cr).longitude = cr.longitude ∧
    (markerFor cr).popup = cr.name ++ " - Language: " ++ cr.language :=
  ⟨rfl, rfl, rfl⟩

/-- Claim C5 (confirmed): whenever the load keeps an entry, the built
record's official name is the entry's formal name if present and its
display name otherwise, and each coordinate is the entry's coordinate if
present and 0 otherwise. -/
theorem record_field_defaults (resolve : String → Option String) (e : RefEntry)
    (cr : CountryRecord) (h : mkRecord resolve e = some cr) :
    (∀ o, e.official_name = some o → cr.official_name = o) ∧
    (e.official_name = none → cr.official_name = e.name) ∧
    (∀ x, e.latitude = some x → cr.latitude = x) ∧
    (e.latitude = none → cr.latitude = 0) ∧
    (∀ x, e.longitude = some x → cr.longitude = x) ∧
    (e.longitude = none → cr.longitude = 0) := by
  obtain ⟨-, ho, hla, hlo⟩ := mkRecord_fields resolve e cr h
  refine ⟨?_, ?_, ?_, ?_, ?_, ?_⟩
  · intro o hoe
    rw [ho, hoe]
    rfl
  · intro hoe
    rw [ho, hoe]
    rfl
  · intro x hx
    rw [hla, hx]
    rfl
  · intro hx
    rw [hla, hx]
    rfl
  · intro x hx
    rw [hlo, hx]
    rfl
  · intro hx
    rw [hlo, hx]
    rfl

/-- Witness for the C5 theorem on the spec's end-to-end entry. -/
theorem record_field_defaults_witness :
    pakistanRecord.official_name = "Islamic Republic of Pakistan" ∧
      pakistanRecord.latitude = 30 :=
  ⟨(record_field_defaults urResolve pakistanEntry pakistanRecord rfl).1
      ("Islamic Republic of Pakistan") rfl,
   (record_field_defaults urResolve pakistanEntry pakistanRecord rfl).2.2.1 30 rfl⟩

/-- Claim C6 (confirmed): on every non-empty directory, the empty query
compiles to the empty pattern, which matches every name, so
`get_country_info` returns the first record. -/
theorem get_country_info_empty_query (dir : List CountryRecord) (h : dir ≠ []) :
    get_country_info dir ("") = Except.ok (some (dir.head h)) := by
  have hp : parseRegex ("") = Except.ok Regex.eps := rfl
  have hg : get_country_info dir ("") =
      Except.ok ((dir.filter (fun cr => Regex.search Regex.eps cr.name)).head?) := by
    unfold get_country_info
    rw [hp]
  have hf : ∀ l : List CountryRecord,
      l.filter (fun cr => Regex.search Regex.eps cr.name) = l := by
    intro l
    induction l with
    | nil => rfl
    | cons a t iht => simp [List.filter_cons, Regex.search_eps, iht]
  rw [hg, hf dir]
  cases dir with
  | nil => exact absurd rfl h
  | cons a t => rfl

/-- Witness for the C6 theorem on the one-record directory. -/
theorem get_country_info_empty_query_witness :
    get_country_info demoDirectory ("") = Except.ok (some chadRecord) :=
  get_country_info_empty_query demoDirectory (by decide)

/-- Claim C7 (confirmed): if every dataset entry has a non-empty name
then every record of the built directory has a non-empty name, and the
directory held by the SDK after either query method is the unchanged
one, so the invariant persists across every post-load operation. -/
theorem directory_names_nonempty (resolve : String → Option String)
    (ds : List RefEntry) (h : ∀ e ∈ ds, e.name ≠ "") :
    (∀ cr ∈ _load_country_data resolve ds, cr.name ≠ "") ∧
    (∀ q : String,
        ∀ cr ∈ ((LanguageMapSDK.init resolve ds).get_country_info_m q).2.country_data,
          cr.name ≠ "") ∧
    (∀ q : String,
        ∀ cr ∈ ((LanguageMapSDK.init resolve ds).create_country_map_m q).2.country_data,
          cr.name ≠ "") := by
  have base : ∀ cr ∈ _load_country_data resolve ds, cr.name ≠ "" := by
    intro cr hcr
    obtain ⟨e, he, hmk⟩ := List.mem_filterMap.mp hcr
    have hname := (mkRecord_fields resolve e cr hmk).1
    rw [hname]
    exact h e he
  exact ⟨base, fun q cr hcr => base cr hcr, fun q cr hcr => base cr hcr⟩

/-- Witness for the C7 theorem on the one-entry dataset. -/
theorem directory_names_nonempty_witness : pakistanRecord.name ≠ "" :=
  (directory_names_nonempty urResolve [pakistanEntry] (by decide)).1
    pakistanRecord (by decide)

/-- Claim C8 (confirmed): two builds over the same reference dataset and
resolution capability produce directories with identical contents. -/
theorem build_twice_identical (resolve : String → Option String)
    (dataset : List RefEntry) :
    (build_twice resolve dataset).1 = (build_twice resolve dataset).2 := rfl

/-- Claim C9 (confirmed): both query methods leave the SDK state — hence
the directory's record sequence — exactly as it was: the Python method
bodies contain no assignment to `self`, modelled by returning the
pre-state unchanged. -/
theorem queries_preserve_directory (sdk : LanguageMapSDK) (q : String) :
    (sdk.get_country_info_m q).2 = sdk ∧
    (sdk.create_country_map_m q).2 = sdk ∧
    (sdk.get_country_info_m q).2.country_data = sdk.country_data ∧
    (sdk.create_country_map_m q).2.country_data = sdk.country_data :=
  ⟨rfl, rfl, rfl, rfl⟩

/-- Claim C10 (confirmed): `create_country_map` returns an absent result
exactly when `get_country_info` does, and on a match returns the map
centred at the record's coordinates, zoom 6, carrying the single marker
at the same coordinates with the record's label. -/
theorem create_country_map_matches_lookup (dir : List CountryRecord) (q : String) :
    (create_country_map dir q = Except.ok none ↔
        get_country_info dir q = Except.ok none) ∧
    (∀ cr : CountryRecord, get_country_info dir q = Except.ok (some cr) →
        create_country_map dir q =
          Except.ok (some ({ location := (cr.latitude, cr.longitude),
                             zoom_start := 6, markers := [markerFor cr] }))) := by
  constructor
  · cases hg : get_country_info dir q with
    | error e => simp [create_country_map, hg]
    | ok o =>
        cases o with
        | none => simp [create_country_map, hg]
        | some cr => simp [create_country_map, hg]
  · intro cr hg
    simp [create_country_map, hg]

/-- Witness for the C10 theorem: the query "chad" matches the record
named "Chad" and yields its map. -/
theorem create_country_map_matches_lookup_witness :
    create_country_map demoDirectory ("chad") =
      Except.ok (some ({ location := ((15 : Rat), (19 : Rat)), zoom_start := 6,
                         markers := [markerFor chadRecord] })) :=
  (create_country_map_matches_lookup demoDirectory ("chad")).2 chadRecord rfl
